import Mathlib

/-!
Shallow embedding of the peer-review single-page application (src/unnamed/part_000).
The Firestore-backed state is modelled as an explicit record of lists; each event
handler becomes a pure function from the prior state (and its non-deterministic
inputs: today's date, the fresh document id, the random draw) to an outcome plus
the state obtained once its remote writes have been applied.

JavaScript-specific behaviour is modelled explicitly where the handlers rely on it:
`null` coerced to 0 in numeric comparisons, empty strings being falsy for `||`,
`parseInt`/`Number` returning NaN (modelled as `none`), and the string key lookup
of the CSV exporter.  Locale-sensitive string collation (`localeCompare`) is
modelled as code-point order; no claim below depends on the resulting order,
only on the sorted list being a permutation of its input.
-/

namespace PeerReview

/-- A document of the `submissions` collection, as written by `handleAddSubmission`. -/
structure Submission where
  id : String
  author : String
  link : String
  status : String
  reviewCount : Int
  submissionDate : Option String
  pickupDate : Option String
  correctionDate : Option String
deriving DecidableEq

/-- A document of the `reviews` collection, as written by `handleGetWorkToReview`. -/
structure Review where
  id : String
  submissionId : String
  reviewer : String
  status : String
  score : Option Int
  comment : String
  pickupDate : Option String
  correctionDate : Option String
deriving DecidableEq

/-- The singleton `settings/global` document. -/
structure Settings where
  reviewsPerSubmission : Int
  maxScore : Int
deriving DecidableEq

/-- The `dbData` state: the in-memory mirror of the three remote collections. -/
structure DbData where
  submissions : List Submission
  reviews : List Review
  settings : Settings
deriving DecidableEq

/-- JS `v || d` for a string `v`: the empty string is falsy. -/
def jsStrOr (v : String) (d : String) : String :=
  if v = "" then d else v

/-- JS `v || d` where `v` may be `null`/`undefined` (modelled as `none`) or a string. -/
def jsOptStrOr (v : Option String) (d : String) : String :=
  match v with
  | none => d
  | some s => if s = "" then d else s

/-- JS `String.prototype.toLowerCase`, character by character. -/
def jsToLower (s : String) : String :=
  String.mk (s.data.map Char.toLower)

/-- Does the character list `hay` contain `needle` as a contiguous segment? -/
def listHasSegment (needle : List Char) : List Char → Bool
  | [] => needle.isEmpty
  | c :: rest => List.isPrefixOf needle (c :: rest) || listHasSegment needle rest

/-- JS `hay.includes(needle)` on strings. -/
def strIncludes (hay : String) (needle : String) : Bool :=
  listHasSegment needle.data hay.data

/-- Value of a list of decimal digit characters. -/
def digitsToNat (cs : List Char) : Nat :=
  cs.foldl (fun a c => a * 10 + (c.toNat - 48)) 0

/-- Strip leading and trailing whitespace from a character list. -/
def trimChars (cs : List Char) : List Char :=
  ((cs.dropWhile Char.isWhitespace).reverse.dropWhile Char.isWhitespace).reverse

/-- JS `Number(s)` restricted to the integer-literal, empty and garbage strings the
filter menu can produce: the empty (or all-whitespace) string converts to 0, an
optionally signed run of digits converts to its value, anything else is NaN
(modelled as `none`).  Fractional or exponent literals never reach this model. -/
def jsNumberStr (s : String) : Option Int :=
  let t := trimChars s.data
  if t.isEmpty then some 0
  else
    match t with
    | '-' :: rest =>
      if rest.isEmpty then none
      else if rest.all Char.isDigit then some (-(digitsToNat rest : Int)) else none
    | '+' :: rest =>
      if rest.isEmpty then none
      else if rest.all Char.isDigit then some ((digitsToNat rest : Int)) else none
    | cs => if cs.all Char.isDigit then some ((digitsToNat cs : Int)) else none

/-- JS `parseInt(s, 10)`: skip leading whitespace, read an optional sign and then
a maximal run of decimal digits (trailing characters are ignored); NaN (`none`)
when no digit is found. -/
def parseIntJS (s : String) : Option Int :=
  let cs := s.data.dropWhile Char.isWhitespace
  match cs with
  | '-' :: rest =>
    let ds := rest.takeWhile Char.isDigit
    if ds.isEmpty then none else some (-(digitsToNat ds : Int))
  | '+' :: rest =>
    let ds := rest.takeWhile Char.isDigit
    if ds.isEmpty then none else some ((digitsToNat ds : Int))
  | _ =>
    let ds := cs.takeWhile Char.isDigit
    if ds.isEmpty then none else some ((digitsToNat ds : Int))

/-- JS `s.split('-')`: at every separator the current (possibly empty) piece ends;
the empty string splits to `[""]`. -/
def splitOnChar (sep : Char) : List Char → List (List Char)
  | [] => [[]]
  | c :: rest =>
    let r := splitOnChar sep rest
    if c = sep then [] :: r
    else
      match r with
      | [] => [[c]]
      | h :: t => (c :: h) :: t

/-- JS `value.split('-')` on a string. -/
def jsSplitMinus (s : String) : List String :=
  (splitOnChar '-' s.data).map String.mk

/-- JS `score >= n` where `score` may be `null`: `null` coerces to 0. -/
def jsGe (score : Option Int) (n : Int) : Bool :=
  decide (n ≤ score.getD 0)

/-- JS `score <= n` where `score` may be `null`: `null` coerces to 0. -/
def jsLe (score : Option Int) (n : Int) : Bool :=
  decide (score.getD 0 ≤ n)

/-- One row of the unified admin-panel list built by `filteredAndSortedReviews`.
A review row keeps its review's fields and is annotated with its parent
submission's author, link and submission date; a placeholder row for a
review-less submission carries the fixed values written in the source.
`submissionId` is `none` on placeholder rows, where the spread submission
object has no such property. -/
structure Row where
  type : String
  id : String
  submissionId : Option String
  sender : String
  submissionLink : String
  reviewer : String
  status : String
  statusText : String
  score : Option Int
  comment : String
  submissionDate : Option String
  pickupDate : Option String
  correctionDate : Option String
deriving DecidableEq

/-- The row built from a review `rev` of submission `sub`. -/
def reviewRow (sub : Submission) (rev : Review) : Row :=
  { type := "review"
    id := rev.id
    submissionId := some rev.submissionId
    sender := sub.author
    submissionLink := sub.link
    reviewer := rev.reviewer
    status := rev.status
    statusText := if rev.status = "finished" then "Zkontrolováno" else "Vyzvednuto"
    score := rev.score
    comment := rev.comment
    submissionDate := sub.submissionDate
    pickupDate := rev.pickupDate
    correctionDate := rev.correctionDate }

/-- The placeholder row for a submission with no reviews. -/
def submissionRow (sub : Submission) : Row :=
  { type := "submission"
    id := sub.id
    submissionId := none
    sender := sub.author
    submissionLink := sub.link
    reviewer := "N/A"
    status := "unassigned"
    statusText := "Nevyzvednuto"
    score := none
    comment := ""
    submissionDate := sub.submissionDate
    pickupDate := none
    correctionDate := none }

/-- The reviews of `reviews` whose `submissionId` equals `sub.id`. -/
def reviewsForSubmission (reviews : List Review) (sub : Submission) : List Review :=
  reviews.filter (fun r => r.submissionId == sub.id)

/-- The unified item list of `filteredAndSortedReviews` before filtering and
sorting: per submission, its review rows if any exist, else one placeholder. -/
def allItems (submissions : List Submission) (reviews : List Review) : List Row :=
  (submissions.map (fun sub =>
    let revsFor := reviewsForSubmission reviews sub
    if revsFor.length > 0 then revsFor.map (reviewRow sub)
    else [submissionRow sub])).flatten

/-- The `filterMenu` state (`isOpen` models the source's `open` field). -/
structure FilterMenu where
  column : Option String
  isOpen : Bool
  value : String
deriving DecidableEq

/-- The score-range branch of the filter: `value.split('-').map(Number)`, then the
destructured `[min, max]` (a missing element is `undefined`, hence NaN under
`isNaN`), then the three range cases from the source. -/
def scoreRangeFilter (value : String) (score : Option Int) : Bool :=
  let nums := (jsSplitMinus value).map jsNumberStr
  let mn := (nums.get? 0).getD none
  let mx := (nums.get? 1).getD none
  match mn, mx with
  | some a, some b => jsGe score a && jsLe score b
  | some a, none => jsGe score a
  | none, some b => jsLe score b
  | none, none => false

/-- The per-item filter of `filteredAndSortedReviews`.  `item.sender || ''` and
`item.reviewer || ''` are the identity on our string-valued fields, so they are
not repeated here. -/
def itemPassesFilter (fm : FilterMenu) (item : Row) : Bool :=
  if fm.column = some "sender" ∧ fm.value ≠ "" then
    strIncludes (jsToLower item.sender) (jsToLower fm.value)
  else if fm.column = some "reviewer" ∧ fm.value ≠ "" then
    strIncludes (jsToLower item.reviewer) (jsToLower fm.value)
  else if fm.column = some "status" ∧ fm.value ≠ "" then
    item.status == fm.value
  else if fm.column = some "score" ∧ fm.value ≠ "" ∧ item.type = "review" then
    scoreRangeFilter fm.value item.score
  else
    true

/-- The `sort` state. -/
structure SortState where
  column : Option String
  direction : String
deriving DecidableEq

/-- JS `a.localeCompare(b)` modelled as code-point comparison. -/
def localeCmp (a b : String) : Int :=
  match compare a b with
  | Ordering.lt => -1
  | Ordering.eq => 0
  | Ordering.gt => 1

/-- String comparison in the requested direction, as in the source's
`localeCompare` branches. -/
def cmpStrDir (direction : String) (a b : String) : Int :=
  if direction = "asc" then localeCmp a b else localeCmp b a

/-- Numeric comparison in the requested direction (`aValue - bValue`). -/
def cmpNumDir (direction : String) (a b : Int) : Int :=
  if direction = "asc" then a - b else b - a

/-- Comparison of possibly-null date strings.  The source checks only
`typeof aValue === 'string'`; a null right operand is then coerced to the
string "null" by `localeCompare` in JS.  When the left operand is null the
source falls into the numeric branch and produces NaN, which a JS sort treats
as an unspecified tie; both NaN cases are modelled as 0.  No claim below
depends on the resulting order. -/
def cmpOptStrDir (direction : String) (a b : Option String) : Int :=
  match a, b with
  | some x, some y => cmpStrDir direction x y
  | some x, none => cmpStrDir direction x "null"
  | none, _ => 0

/-- The sort value of the score column: `-1` for placeholder rows and null scores. -/
def scoreSortValue (a : Row) : Int :=
  if a.type = "review" ∧ a.score ≠ none then a.score.getD 0 else -1

/-- The sort value of the comment column: comment length, 0 for placeholder rows. -/
def commentSortValue (a : Row) : Int :=
  if a.type = "review" then (a.comment.length : Int) else 0

/-- The sort comparator of `filteredAndSortedReviews`. -/
def rowSortCmp (sort : SortState) (a b : Row) : Int :=
  match sort.column with
  | none => 0
  | some col =>
    if sort.direction = "none" then 0
    else if col = "sender" then cmpStrDir sort.direction a.sender b.sender
    else if col = "reviewer" then cmpStrDir sort.direction a.reviewer b.reviewer
    else if col = "submissionLink" then cmpStrDir sort.direction a.submissionLink b.submissionLink
    else if col = "status" then cmpStrDir sort.direction a.status b.status
    else if col = "submissionDate" then cmpOptStrDir sort.direction a.submissionDate b.submissionDate
    else if col = "pickupDate" then cmpOptStrDir sort.direction a.pickupDate b.pickupDate
    else if col = "correctionDate" then cmpOptStrDir sort.direction a.correctionDate b.correctionDate
    else if col = "score" then cmpNumDir sort.direction (scoreSortValue a) (scoreSortValue b)
    else if col = "comment" then cmpNumDir sort.direction (commentSortValue a) (commentSortValue b)
    else 0

/-- `[...filtered].sort(comparator)`: a stable sort (ES2019) on the comparator's
nonpositive relation, modelled by merge sort. -/
def sortRows (sort : SortState) (l : List Row) : List Row :=
  l.mergeSort (fun a b => rowSortCmp sort a b ≤ 0)

/-- The derived view of the admin panel: join, filter, sort. -/
def filteredAndSortedReviews (db : DbData) (fm : FilterMenu) (sort : SortState) : List Row :=
  sortRows sort ((allItems db.submissions db.reviews).filter (itemPassesFilter fm))

/-- The intermediate record a row is mapped to by `handleExportToExcel`.  Its
field names are the ASCII object keys written in the source. -/
structure CsvRecord where
  odesilatel : String
  odkaz : String
  recenzent : String
  stav_recenze : String
  hodnoceni : String
  komentar : String
  datum_odeslani : String
  datum_vyzvednuti : String
  datum_opravy : String
deriving DecidableEq

/-- The row-to-record mapping of `handleExportToExcel`. -/
def rowToCsvRecord (settings : Settings) (item : Row) : CsvRecord :=
  if item.type = "submission" then
    { odesilatel := item.sender
      odkaz := item.submissionLink
      recenzent := "N/A"
      stav_recenze := "Nevyzvednuto"
      hodnoceni := "N/A"
      komentar := "N/A"
      datum_odeslani := jsOptStrOr item.submissionDate "N/A"
      datum_vyzvednuti := "N/A"
      datum_opravy := "N/A" }
  else
    { odesilatel := jsStrOr item.sender "N/A"
      odkaz := jsStrOr item.submissionLink "N/A"
      recenzent := jsStrOr item.reviewer "N/A"
      stav_recenze := if item.status = "finished" then "Zkontrolováno" else "Vyzvednuto"
      hodnoceni :=
        match item.score with
        | some n => toString n ++ " / " ++ toString settings.maxScore
        | none => "N/A"
      komentar := jsStrOr item.comment "Žádná poznámka"
      datum_odeslani := jsOptStrOr item.submissionDate "N/A"
      datum_vyzvednuti := jsOptStrOr item.pickupDate "N/A"
      datum_opravy := jsOptStrOr item.correctionDate "N/A" }

/-- The fixed header list of the exporter. -/
def csvHeaders : List String :=
  ["Odesilatel", "Odkaz", "Recenzent", "Stav recenze", "Hodnocení",
   "Komentář", "Datum odeslání", "Datum vyzvednutí", "Datum opravy"]

/-- JS property lookup `row[key]` on a `CsvRecord` object: `none` models
`undefined` for a key that is not one of the record's nine properties. -/
def csvRecordGet (r : CsvRecord) (key : String) : Option String :=
  if key = "odesilatel" then some r.odesilatel
  else if key = "odkaz" then some r.odkaz
  else if key = "recenzent" then some r.recenzent
  else if key = "stav_recenze" then some r.stav_recenze
  else if key = "hodnoceni" then some r.hodnoceni
  else if key = "komentar" then some r.komentar
  else if key = "datum_odeslani" then some r.datum_odeslani
  else if key = "datum_vyzvednuti" then some r.datum_vyzvednuti
  else if key = "datum_opravy" then some r.datum_opravy
  else none

/-- The exporter's key derivation `header.toLowerCase().replace(/ /g, '_')`.
Space is unchanged by `toLowerCase`, so the two passes fuse into one map. -/
def headerKey (header : String) : String :=
  String.mk (header.data.map (fun c => if c = ' ' then '_' else c.toLower))

/-- The exporter's quote escaping `value.replace(/"/g, '""')`. -/
def escapeCsv (s : String) : String :=
  String.mk (s.data.flatMap (fun c => if c = '"' then ['"', '"'] else [c]))

/-- One quoted CSV field: `(value || '').toString()` turns the `undefined` of a
missed key lookup into the empty string. -/
def csvField (r : CsvRecord) (header : String) : String :=
  "\"" ++ escapeCsv ((csvRecordGet r (headerKey header)).getD "") ++ "\""

/-- One data line of the CSV: the nine fields joined with ";". -/
def csvLine (r : CsvRecord) : String :=
  String.intercalate ";" (csvHeaders.map (csvField r))

/-- All lines of the CSV: the header line followed by one line per projected row. -/
def exportCsvLines (db : DbData) (fm : FilterMenu) (sort : SortState) : List String :=
  let rows := (filteredAndSortedReviews db fm sort).map (rowToCsvRecord db.settings)
  String.intercalate ";" csvHeaders :: rows.map csvLine

/-- The CSV text of `handleExportToExcel` (the part of the blob after the BOM). -/
def exportCsvString (db : DbData) (fm : FilterMenu) (sort : SortState) : String :=
  String.intercalate "\n" (exportCsvLines db fm sort)

/-- The full blob text: the UTF-8 byte-order mark followed by the CSV text. -/
def exportBlobText (db : DbData) (fm : FilterMenu) (sort : SortState) : String :=
  "\uFEFF" ++ exportCsvString db fm sort

/-- The `handleSort` state transition. -/
def handleSort (prev : SortState) (column : String) : SortState :=
  if prev.column = some column then
    if prev.direction = "asc" then { column := some column, direction := "desc" }
    else if prev.direction = "desc" then { column := none, direction := "none" }
    else { column := some column, direction := "asc" }
  else { column := some column, direction := "asc" }

/-- The candidate set of `handleGetWorkToReview`: submissions not authored by the
caller and not already reviewed by the caller. -/
def availableSubmissions (db : DbData) (caller : String) : List Submission :=
  db.submissions.filter (fun s =>
    (s.author != caller) &&
      !(db.reviews.any (fun r => r.submissionId == s.id && r.reviewer == caller)))

/-- Outcome of `handleGetWorkToReview`. -/
inductive AssignOutcome where
  | noUser : AssignOutcome
  | unavailable (message : String) : AssignOutcome
  | assigned (chosen : Submission) : AssignOutcome
deriving DecidableEq

/-- The `handleGetWorkToReview` handler.  `today` is the value of
`getTodayDate()`, `freshId` the document id minted by `addDoc`, and `rand` an
arbitrary natural number standing for the random draw: the source's
`Math.floor(Math.random() * length)` is an arbitrary index below `length`,
modelled as `rand % length`.  The returned state has both remote writes (the
review creation and the submission's pickup-date update) applied. -/
def handleGetWorkToReview (db : DbData) (currentUser : Option String)
    (today : String) (freshId : String) (rand : Nat) : AssignOutcome × DbData :=
  match currentUser with
  | none => (AssignOutcome.noUser, db)
  | some caller =>
    let avail := availableSubmissions db caller
    if h : avail.length = 0 then
      (AssignOutcome.unavailable
        "Není k dispozici žádná práce k hodnocení. Zkuste to prosím později.", db)
    else
      let idx : Fin avail.length := ⟨rand % avail.length, Nat.mod_lt _ (Nat.pos_of_ne_zero h)⟩
      let chosen := avail.get idx
      let newReview : Review :=
        { id := freshId
          submissionId := chosen.id
          reviewer := caller
          status := "assigned"
          score := none
          comment := ""
          pickupDate := some today
          correctionDate := none }
      (AssignOutcome.assigned chosen,
        { db with
          reviews := db.reviews ++ [newReview]
          submissions := db.submissions.map (fun s =>
            if s.id = chosen.id then { s with pickupDate := some today } else s) })

/-- `deleteDoc` on the reviews collection: remove the document with the given id. -/
def deleteReviewDoc (reviews : List Review) (docId : String) : List Review :=
  reviews.filter (fun r => r.id != docId)

/-- The `handleDeleteSubmission` handler with all its deletes applied: query the
reviews with the given `submissionId`, delete each queried document by id, then
delete the submission document. -/
def handleDeleteSubmission (db : DbData) (id : String) : DbData :=
  let queried := db.reviews.filter (fun r => r.submissionId == id)
  { db with
    reviews := queried.foldl (fun revs rdoc => deleteReviewDoc revs rdoc.id) db.reviews
    submissions := db.submissions.filter (fun s => s.id != id) }

/-- Outcome of `handleSaveSettings`. -/
inductive SaveSettingsOutcome where
  | rejected (message : String) : SaveSettingsOutcome
  | saved (s : Settings) : SaveSettingsOutcome
deriving DecidableEq

/-- The validation message of `handleSaveSettings`. -/
def settingsMsg : String :=
  "Prosím, zadejte platné hodnoty pro nastavení. Počet hodnocení > 0, Max. body 0-100."

/-- The `handleSaveSettings` handler on the two parsed input strings: the write
happens exactly when neither parse is NaN, `reviewCount > 0`, and
`0 ≤ maxScore ≤ 100` (the NaN match arms mirror the short-circuiting
`isNaN` disjuncts of the source's condition). -/
def handleSaveSettings (reviewCountStr maxScoreStr : String) : SaveSettingsOutcome :=
  match parseIntJS reviewCountStr, parseIntJS maxScoreStr with
  | some reviewCount, some maxScore =>
    if reviewCount ≤ 0 ∨ maxScore < 0 ∨ maxScore > 100 then
      SaveSettingsOutcome.rejected settingsMsg
    else
      SaveSettingsOutcome.saved { reviewsPerSubmission := reviewCount, maxScore := maxScore }
  | _, _ => SaveSettingsOutcome.rejected settingsMsg

/-- Outcome of `handleSubmitReview`. -/
inductive SubmitReviewOutcome where
  | noReview : SubmitReviewOutcome
  | invalid (message : String) : SubmitReviewOutcome
  | written : SubmitReviewOutcome
deriving DecidableEq

/-- The validation message of `handleSubmitReview` for a given maximum score. -/
def scoreMsg (maxScore : Int) : String :=
  "Prosím, zadejte hodnocení v rozmezí 0-" ++ toString maxScore ++ " bodů."

/-- The `handleSubmitReview` handler: validate the parsed score, then update the
review document and, when the review is found in the cache, the parent
submission's correction date. -/
def handleSubmitReview (db : DbData) (currentReviewId : Option String)
    (reviewScore reviewComment : String) (today : String) : SubmitReviewOutcome × DbData :=
  match currentReviewId with
  | none => (SubmitReviewOutcome.noReview, db)
  | some rid =>
    match parseIntJS reviewScore with
    | none => (SubmitReviewOutcome.invalid (scoreMsg db.settings.maxScore), db)
    | some score =>
      if score < 0 ∨ score > db.settings.maxScore then
        (SubmitReviewOutcome.invalid (scoreMsg db.settings.maxScore), db)
      else
        let comment := reviewComment.trim
        let db1 := { db with
          reviews := db.reviews.map (fun r =>
            if r.id = rid then
              { r with score := some score, comment := comment,
                       status := "finished", correctionDate := some today }
            else r) }
        let db2 :=
          match db.reviews.find? (fun r => r.id == rid) with
          | some review =>
            { db1 with
              submissions := db1.submissions.map (fun s =>
                if s.id = review.submissionId then { s with correctionDate := some today } else s) }
          | none => db1
        (SubmitReviewOutcome.written, db2)

/-- Default settings, as in the initial state and `handleDeleteAllData`. -/
def defaultSettings : Settings :=
  { reviewsPerSubmission := 3, maxScore := 100 }

/-- Test fixture: a submission by alice. -/
def subA : Submission :=
  { id := "s1", author := "alice@example.com", link := "http://example.com/work"
    status := "Odesláno", reviewCount := 0, submissionDate := some "2024-01-01"
    pickupDate := some "2024-01-02", correctionDate := some "2024-01-03" }

/-- Test fixture: a submission by carol with no reviews. -/
def subC : Submission :=
  { id := "s2", author := "carol@example.com", link := "http://example.com/c"
    status := "Odesláno", reviewCount := 0, submissionDate := some "2024-01-05"
    pickupDate := none, correctionDate := none }

/-- Test fixture: bob's finished review of `subA` with score 85. -/
def revB : Review :=
  { id := "r1", submissionId := "s1", reviewer := "bob@example.com"
    status := "finished", score := some 85, comment := "dobra prace"
    pickupDate := some "2024-01-02", correctionDate := some "2024-01-03" }

/-- Test fixture: bob's finished review of `subA` with score 30. -/
def rev30 : Review :=
  { id := "r30", submissionId := "s1", reviewer := "bob@example.com"
    status := "finished", score := some 30, comment := "ok"
    pickupDate := some "2024-01-02", correctionDate := some "2024-01-03" }

/-- Test fixture: a second review of `subA`. -/
def rev2 : Review :=
  { id := "r2", submissionId := "s1", reviewer := "dave@example.com"
    status := "assigned", score := none, comment := ""
    pickupDate := some "2024-01-04", correctionDate := none }

/-- Test fixture: a review whose `submissionId` matches no cached submission. -/
def orphanRev : Review :=
  { id := "rz", submissionId := "zz", reviewer := "bob@example.com"
    status := "assigned", score := none, comment := ""
    pickupDate := some "2024-01-02", correctionDate := none }

/-- Test fixture: alice's review of carol's submission `subC`. -/
def revAliceOnC : Review :=
  { id := "ra", submissionId := "s2", reviewer := "alice@example.com"
    status := "assigned", score := none, comment := ""
    pickupDate := some "2024-01-06", correctionDate := none }

/-- The inactive filter menu. -/
def noFilter : FilterMenu :=
  { column := none, isOpen := false, value := "" }

/-- The inactive sort state. -/
def noSort : SortState :=
  { column := none, direction := "none" }

/-- The score filter menu with value "10-50". -/
def scoreFilter1050 : FilterMenu :=
  { column := some "score", isOpen := true, value := "10-50" }

/-- With no filter column selected, every item passes the filter. -/
theorem itemPassesFilter_noFilter (row : Row) : itemPassesFilter noFilter row = true := rfl

/-- Evaluation of the score filter at the concrete value "10-50". -/
theorem scoreRangeFilter_1050 (s : Option Int) :
    scoreRangeFilter "10-50" s = (jsGe s 10 && jsLe s 50) := rfl

/-- Characterisation of the filter predicate for the "10-50" score filter. -/
theorem itemPasses_score1050 (row : Row) :
    itemPassesFilter scoreFilter1050 row = true ↔
      (row.type = "review" → ∃ n, row.score = some n ∧ 10 ≤ n ∧ n ≤ 50) := by
  unfold itemPassesFilter
  rw [if_neg (by decide : ¬(scoreFilter1050.column = some "sender" ∧ scoreFilter1050.value ≠ "")),
    if_neg (by decide : ¬(scoreFilter1050.column = some "reviewer" ∧ scoreFilter1050.value ≠ "")),
    if_neg (by decide : ¬(scoreFilter1050.column = some "status" ∧ scoreFilter1050.value ≠ ""))]
  by_cases hr : row.type = "review"
  · rw [if_pos ⟨by decide, by decide, hr⟩]
    show scoreRangeFilter "10-50" row.score = true ↔ _
    rw [scoreRangeFilter_1050]
    cases hs : row.score with
    | none => simp [jsGe, jsLe, hr]
    | some n =>
      simp only [jsGe, jsLe, hr, Option.getD_some, Bool.and_eq_true, decide_eq_true_eq,
        forall_const, Option.some.injEq]
      constructor
      · rintro ⟨h1, h2⟩
        exact ⟨n, rfl, h1, h2⟩
      · rintro ⟨m, rfl, h1, h2⟩
        exact ⟨h1, h2⟩
  · rw [if_neg (fun hc => hr hc.2.2)]
    simp [hr]

/-- With the inactive sort state the comparator is constantly 0, so the stable
sort leaves the list unchanged. -/
theorem sortRows_noSort (l : List Row) : sortRows noSort l = l := by
  unfold sortRows
  apply List.mergeSort_of_sorted
  induction l with
  | nil => exact List.Pairwise.nil
  | cons x xs ih => exact List.Pairwise.cons (fun y _ => rfl) ih

/-- C1: the exporter's row record does carry "85 / 100" (for a review with
score 85 under maxScore 100) and "N/A" (for a placeholder row) in its
`hodnoceni` field, but the emitted CSV field for the Hodnocení column is the
empty quoted string `""` in both cases, because the lookup key derived from the
header ("hodnocení", with diacritics) matches no record key: the claimed fields
`"85 / 100"` and `"N/A"` never reach the CSV text.  The full second CSV line of
the export at this state is shown, with `""` in the score, comment and two of
the date columns. -/
theorem c1_export_header_key_mismatch :
    (rowToCsvRecord defaultSettings (reviewRow subA revB)).hodnoceni = "85 / 100" ∧
    headerKey "Hodnocení" ≠ "hodnoceni" ∧
    csvField (rowToCsvRecord defaultSettings (reviewRow subA revB)) "Hodnocení" = "\"\"" ∧
    (rowToCsvRecord defaultSettings (submissionRow subC)).hodnoceni = "N/A" ∧
    csvField (rowToCsvRecord defaultSettings (submissionRow subC)) "Hodnocení" = "\"\"" ∧
    (exportCsvLines { submissions := [subA], reviews := [revB], settings := defaultSettings }
        noFilter noSort).get? 1 =
      some "\"alice@example.com\";\"http://example.com/work\";\"bob@example.com\";\"Zkontrolováno\";\"\";\"\";\"\";\"\";\"2024-01-03\"" := by
  refine ⟨by decide, by decide, by decide, by decide, by decide, ?_⟩
  simp only [exportCsvLines, filteredAndSortedReviews]
  rw [sortRows_noSort]
  decide

/-- C2 counterexample: with the "10-50" score filter active, the projected row
set of a state holding one review-less submission is exactly that submission's
placeholder row, so the filtered row set does contain a submission-placeholder
row, contrary to the claim. -/
theorem c2_score_filter_counterexample :
    filteredAndSortedReviews { submissions := [subC], reviews := [], settings := defaultSettings }
        scoreFilter1050 noSort = [submissionRow subC] ∧
    (submissionRow subC).type = "submission" := by
  constructor
  · simp only [filteredAndSortedReviews]
    rw [sortRows_noSort]
    decide
  · decide

/-- C2 (amended): with the "10-50" score filter active, the produced row set
contains exactly the review-type rows whose score satisfies 10 ≤ score ≤ 50
together with every submission-placeholder row (the filter is evaluated only
against review-type rows; all other rows pass unchanged). -/
theorem c2_score_filter_amended (subs : List Submission) (revs : List Review)
    (st : Settings) (srt : SortState) (row : Row) :
    row ∈ filteredAndSortedReviews { submissions := subs, reviews := revs, settings := st }
        scoreFilter1050 srt ↔
      row ∈ allItems subs revs ∧
        (row.type = "review" → ∃ n, row.score = some n ∧ 10 ≤ n ∧ n ≤ 50) := by
  unfold filteredAndSortedReviews sortRows
  rw [(List.mergeSort_perm _ _).mem_iff, List.mem_filter, itemPasses_score1050]

/-- Witness for C2: a review row with score 30 is in the filtered row set. -/
theorem c2_score_filter_witness :
    reviewRow subA rev30 ∈
      filteredAndSortedReviews { submissions := [subA], reviews := [rev30], settings := defaultSettings }
        scoreFilter1050 noSort :=
  (c2_score_filter_amended [subA] [rev30] defaultSettings noSort (reviewRow subA rev30)).mpr
    ⟨by decide, fun _ => ⟨30, rfl, by decide, by decide⟩⟩

/-- C3 counterexample: a review whose `submissionId` matches no cached
submission produces no row, so the projected row count (0) differs from
(number of reviews) + (number of submissions with zero reviews) = 1. -/
theorem c3_row_count_counterexample :
    ¬ ((filteredAndSortedReviews { submissions := [], reviews := [orphanRev], settings := defaultSettings }
          noFilter noSort).length
        = ([orphanRev] : List Review).length
          + (([] : List Submission).filter
              (fun sub => (reviewsForSubmission [orphanRev] sub).length = 0)).length) := by
  simp only [filteredAndSortedReviews]
  rw [sortRows_noSort]
  decide

/-- Splitting off the "empty bucket counts as one" summands. -/
theorem sum_map_ite_pos (l : List Submission) (g : Submission → Nat) :
    (l.map (fun x => if g x > 0 then g x else 1)).sum
      = (l.map g).sum + (l.filter (fun x => g x = 0)).length := by
  induction l with
  | nil => simp
  | cons x xs ih =>
    by_cases h : g x = 0
    · simp [h, ih]
      omega
    · simp only [List.map_cons, List.sum_cons, List.filter_cons, decide_eq_true_eq, h,
        if_false, ih]
      have hx : g x > 0 := Nat.pos_of_ne_zero h
      rw [if_pos hx]
      omega

/-- A sum of 0/1 indicators is the length of the corresponding filter. -/
theorem sum_map_indicator (l : List Submission) (x : String) :
    (l.map (fun s => if s.id = x then 1 else 0)).sum
      = (l.filter (fun s => s.id = x)).length := by
  induction l with
  | nil => simp
  | cons s rest ih =>
    by_cases h : s.id = x
    · simp [h, ih]
      omega
    · simp [h, ih]

/-- Under distinct submission ids, a matched id is matched by exactly one
submission. -/
theorem filter_id_length_one (l : List Submission) (x : String)
    (hids : (l.map Submission.id).Nodup) (hex : ∃ s ∈ l, s.id = x) :
    (l.filter (fun s => s.id = x)).length = 1 := by
  induction l with
  | nil => simp at hex
  | cons s rest ih =>
    simp only [List.map_cons, List.nodup_cons] at hids
    obtain ⟨hnotin, hrest⟩ := hids
    by_cases h : s.id = x
    · have hzero : rest.filter (fun t => decide (t.id = x)) = [] := by
        rw [List.filter_eq_nil_iff]
        intro t ht
        simp only [decide_eq_true_eq]
        intro he
        exact hnotin (List.mem_map.mpr ⟨t, ht, by rw [he, h]⟩)
      simp [h, hzero]
    · obtain ⟨w, hw, hwid⟩ := hex
      rcases List.mem_cons.mp hw with rfl | hw'
      · exact absurd hwid h
      · simp only [List.filter_cons, decide_eq_true_eq, h, if_false]
        exact ih hrest ⟨w, hw', hwid⟩

/-- Counting a cons of the review list bucket-wise. -/
theorem reviewsForSubmission_cons_length (r : Review) (rest : List Review) (sub : Submission) :
    (reviewsForSubmission (r :: rest) sub).length
      = (if sub.id = r.submissionId then 1 else 0) + (reviewsForSubmission rest sub).length := by
  by_cases h : sub.id = r.submissionId
  · simp [reviewsForSubmission, List.filter_cons, h.symm]
    omega
  · have hne : (r.submissionId == sub.id) = false := by
      simp only [beq_eq_false_iff_ne, ne_eq]
      exact fun he => h he.symm
    simp [reviewsForSubmission, List.filter_cons, hne, h]

/-- Sums of pointwise additions split. -/
theorem sum_map_add_pair (l : List Submission) (f g : Submission → Nat) :
    (l.map (fun x => f x + g x)).sum = (l.map f).sum + (l.map g).sum := by
  induction l with
  | nil => simp
  | cons x xs ih =>
    simp only [List.map_cons, List.sum_cons, ih]
    omega

/-- Double counting: when every review matches some submission and submission
ids are distinct, the bucket sizes sum to the number of reviews. -/
theorem sum_counts (subs : List Submission) (revs : List Review)
    (hids : (subs.map Submission.id).Nodup)
    (hmatch : ∀ r ∈ revs, ∃ s ∈ subs, s.id = r.submissionId) :
    (subs.map (fun sub => (reviewsForSubmission revs sub).length)).sum = revs.length := by
  induction revs with
  | nil => simp [reviewsForSubmission]
  | cons r rest ih =>
    rw [List.map_congr_left (g := fun sub =>
        (if sub.id = r.submissionId then 1 else 0) + (reviewsForSubmission rest sub).length)
        (fun sub _ => reviewsForSubmission_cons_length r rest sub),
      sum_map_add_pair, sum_map_indicator,
      filter_id_length_one subs r.submissionId hids (hmatch r (List.mem_cons_self r rest)),
      ih (fun t ht => hmatch t (List.mem_cons_of_mem r ht)), List.length_cons]
    omega

/-- Row count of the unified item list under the two integrity hypotheses. -/
theorem allItems_length (subs : List Submission) (revs : List Review)
    (hids : (subs.map Submission.id).Nodup)
    (hmatch : ∀ r ∈ revs, ∃ s ∈ subs, s.id = r.submissionId) :
    (allItems subs revs).length
      = revs.length
        + (subs.filter (fun sub => (reviewsForSubmission revs sub).length = 0)).length := by
  unfold allItems
  rw [List.length_flatten, List.map_map]
  have hpt : List.map (List.length ∘ fun sub =>
      if (reviewsForSubmission revs sub).length > 0
      then (reviewsForSubmission revs sub).map (reviewRow sub)
      else [submissionRow sub]) subs
      = subs.map (fun sub =>
          if (reviewsForSubmission revs sub).length > 0
          then (reviewsForSubmission revs sub).length else 1) := by
    apply List.map_congr_left
    intro sub _
    by_cases h : (reviewsForSubmission revs sub).length > 0
    · simp [h]
    · simp [h]
  rw [hpt, sum_map_ite_pos, sum_counts subs revs hids hmatch]

/-- C3 (amended): when submission ids are pairwise distinct and every review's
`submissionId` matches some cached submission, the row count of the view
projection with no active filter equals (number of reviews) + (number of
submissions with zero reviews).  Without those hypotheses the equality fails
(see the orphan-review counterexample). -/
theorem c3_row_count_amended (subs : List Submission) (revs : List Review)
    (st : Settings) (srt : SortState)
    (hids : (subs.map Submission.id).Nodup)
    (hmatch : ∀ r ∈ revs, ∃ s ∈ subs, s.id = r.submissionId) :
    (filteredAndSortedReviews { submissions := subs, reviews := revs, settings := st }
        noFilter srt).length
      = revs.length
        + (subs.filter (fun sub => (reviewsForSubmission revs sub).length = 0)).length := by
  unfold filteredAndSortedReviews sortRows
  rw [(List.mergeSort_perm _ _).length_eq,
    List.filter_eq_self.mpr (fun row _ => itemPassesFilter_noFilter row)]
  exact allItems_length subs revs hids hmatch

/-- Witness for C3: one reviewed and one unreviewed submission give 1 + 1 rows. -/
theorem c3_row_count_witness :
    (filteredAndSortedReviews
        { submissions := [subA, subC], reviews := [revB], settings := defaultSettings }
        noFilter noSort).length = 2 :=
  (c3_row_count_amended [subA, subC] [revB] defaultSettings noSort (by decide)
    (by decide)).trans (by decide)

/-- C4: every candidate computed by the Assignment Selector is neither authored
by the caller nor already reviewed by the caller, and when the candidate set is
empty the operation performs no write (the state is returned unchanged) and
reports unavailability. -/
theorem c4_selector_sound (db : DbData) (caller today freshId : String) (rand : Nat) :
    (∀ s ∈ availableSubmissions db caller,
        s.author ≠ caller ∧ ∀ r ∈ db.reviews, ¬(r.submissionId = s.id ∧ r.reviewer = caller)) ∧
    (availableSubmissions db caller = [] →
        handleGetWorkToReview db (some caller) today freshId rand =
          (AssignOutcome.unavailable
            "Není k dispozici žádná práce k hodnocení. Zkuste to prosím později.", db)) := by
  constructor
  · intro s hs
    rw [availableSubmissions, List.mem_filter] at hs
    obtain ⟨-, hcond⟩ := hs
    simp only [Bool.and_eq_true, bne_iff_ne, ne_eq, Bool.not_eq_true'] at hcond
    obtain ⟨hauthor, hany⟩ := hcond
    refine ⟨hauthor, ?_⟩
    intro r hr ⟨hsub, hrev⟩
    have := (List.any_eq_false.mp hany) r hr
    simp only [Bool.and_eq_true, beq_iff_eq, not_and] at this
    exact this hsub hrev
  · intro h
    simp only [handleGetWorkToReview]
    rw [dif_pos (by rw [h]; rfl)]

/-- Witness for C4: for a caller who authored one cached submission and already
reviewed the other, the candidate set is empty and the handler reports
unavailability without changing the state. -/
theorem c4_selector_witness :
    handleGetWorkToReview
        { submissions := [subA, subC], reviews := [revAliceOnC], settings := defaultSettings }
        (some "alice@example.com") "2024-02-01" "f1" 0 =
      (AssignOutcome.unavailable
        "Není k dispozici žádná práce k hodnocení. Zkuste to prosím později.",
       { submissions := [subA, subC], reviews := [revAliceOnC], settings := defaultSettings }) :=
  (c4_selector_sound
    { submissions := [subA, subC], reviews := [revAliceOnC], settings := defaultSettings }
    "alice@example.com" "2024-02-01" "f1" 0).2 (by decide)

/-- A review surviving the delete loop was in the original list and differs in
id from every queried document. -/
theorem mem_foldl_deleteReviews (docs : List Review) (revs : List Review) (r : Review)
    (h : r ∈ docs.foldl (fun acc d => deleteReviewDoc acc d.id) revs) :
    r ∈ revs ∧ ∀ d ∈ docs, r.id ≠ d.id := by
  induction docs generalizing revs with
  | nil => exact ⟨h, by simp⟩
  | cons d ds ih =>
    rw [List.foldl_cons] at h
    obtain ⟨hmem, hrest⟩ := ih _ h
    rw [deleteReviewDoc, List.mem_filter] at hmem
    obtain ⟨hrevs, hne⟩ := hmem
    refine ⟨hrevs, ?_⟩
    intro d' hd'
    rcases List.mem_cons.mp hd' with rfl | hd''
    · exact bne_iff_ne.mp hne
    · exact hrest d' hd''

/-- C5: after `handleDeleteSubmission` completes, no review referencing the
deleted submission id remains, and the submission itself is removed. -/
theorem c5_cascade_delete (db : DbData) (id : String) :
    (∀ r ∈ (handleDeleteSubmission db id).reviews, r.submissionId ≠ id) ∧
    (∀ s ∈ (handleDeleteSubmission db id).submissions, s.id ≠ id) := by
  constructor
  · intro r hr hsub
    obtain ⟨hmem, hall⟩ := mem_foldl_deleteReviews _ _ _ hr
    exact hall r (List.mem_filter.mpr ⟨hmem, by simp [hsub]⟩) rfl
  · intro s hs
    have := (List.mem_filter.mp hs).2
    exact bne_iff_ne.mp this

/-- Witness for C5: deleting a submission with two associated reviews leaves no
review referencing it and removes the submission. -/
theorem c5_cascade_delete_witness :
    ((handleDeleteSubmission
          { submissions := [subA], reviews := [revB, rev2], settings := defaultSettings }
          "s1").reviews.all (fun r => r.submissionId != "s1")
      && (handleDeleteSubmission
          { submissions := [subA], reviews := [revB, rev2], settings := defaultSettings }
          "s1").submissions.all (fun s => s.id != "s1")) = true := by
  have h := c5_cascade_delete
    { submissions := [subA], reviews := [revB, rev2], settings := defaultSettings } "s1"
  rw [Bool.and_eq_true, List.all_eq_true, List.all_eq_true]
  exact ⟨fun r hr => bne_iff_ne.mpr (h.1 r hr), fun s hs => bne_iff_ne.mpr (h.2 s hs)⟩

/-- C6: per column the sort state cycles none → asc → desc → none on repeated
selection of the same column, and selecting a different column from any state
resets to ascending on that column. -/
theorem c6_sort_cycle (c d : String) (st : SortState) :
    (handleSort { column := none, direction := "none" } c
        = { column := some c, direction := "asc" } ∧
     handleSort { column := some c, direction := "asc" } c
        = { column := some c, direction := "desc" } ∧
     handleSort { column := some c, direction := "desc" } c
        = { column := none, direction := "none" }) ∧
    (st.column = some c → d ≠ c →
        handleSort st d = { column := some d, direction := "asc" }) := by
  refine ⟨⟨by simp [handleSort], by simp [handleSort], by simp [handleSort]⟩, ?_⟩
  intro h1 h2
  unfold handleSort
  rw [h1, if_neg (fun he => h2 (Option.some.inj he).symm)]

/-- Witness for C6: the full cycle on the "sender" column and a switch to the
"reviewer" column from a "sender" sort. -/
theorem c6_sort_cycle_witness :
    (handleSort { column := none, direction := "none" } "sender"
        = { column := some "sender", direction := "asc" } ∧
     handleSort { column := some "sender", direction := "asc" } "sender"
        = { column := some "sender", direction := "desc" } ∧
     handleSort { column := some "sender", direction := "desc" } "sender"
        = { column := none, direction := "none" }) ∧
    handleSort { column := some "sender", direction := "asc" } "reviewer"
      = { column := some "reviewer", direction := "asc" } :=
  ⟨(c6_sort_cycle "sender" "reviewer" { column := some "sender", direction := "asc" }).1,
   (c6_sort_cycle "sender" "reviewer" { column := some "sender", direction := "asc" }).2
     rfl (by decide)⟩

/-- A map relates pointwise to its source list. -/
theorem forall2_map_self (l : List Submission) (f : Submission → Submission)
    (R : Submission → Submission → Prop) (h : ∀ x ∈ l, R x (f x)) :
    List.Forall₂ R l (l.map f) := by
  induction l with
  | nil => exact List.Forall₂.nil
  | cons x xs ih =>
    exact List.Forall₂.cons (h x (List.mem_cons_self x xs))
      (ih (fun y hy => h y (List.mem_cons_of_mem x hy)))

/-- C7: on success the Assignment Selector changes the state only by appending
one new review with exactly the written fields (submissionId = the chosen
candidate's id, reviewer = caller, status "assigned", null score, empty
comment, pickupDate = today, null correctionDate) and by setting the chosen
submission's pickupDate to today; the settings record, every other submission
and every pre-existing review are unchanged. -/
theorem c7_assign_frame (db : DbData) (caller today freshId : String) (rand : Nat)
    (h : availableSubmissions db caller ≠ []) :
    ∃ chosen ∈ availableSubmissions db caller,
      (handleGetWorkToReview db (some caller) today freshId rand).1
          = AssignOutcome.assigned chosen ∧
      (handleGetWorkToReview db (some caller) today freshId rand).2.settings = db.settings ∧
      (handleGetWorkToReview db (some caller) today freshId rand).2.reviews
          = db.reviews ++
            [{ id := freshId, submissionId := chosen.id, reviewer := caller,
               status := "assigned", score := none, comment := "",
               pickupDate := some today, correctionDate := none }] ∧
      List.Forall₂ (fun old new =>
          (old.id ≠ chosen.id → new = old) ∧
          (old.id = chosen.id → new = { old with pickupDate := some today }))
        db.submissions (handleGetWorkToReview db (some caller) today freshId rand).2.submissions := by
  have hlen : ¬ (availableSubmissions db caller).length = 0 := by
    simpa [List.length_eq_zero] using h
  simp only [handleGetWorkToReview]
  rw [dif_neg hlen]
  refine ⟨_, List.get_mem _ _ _, rfl, rfl, rfl, ?_⟩
  apply forall2_map_self
  intro s _
  constructor
  · intro hne
    exact if_neg hne
  · intro he
    exact if_pos he

/-- Witness for C7: with one foreign unreviewed submission cached, the handler
assigns it and applies exactly the two writes. -/
theorem c7_assign_frame_witness :
    ∃ chosen ∈ availableSubmissions
        { submissions := [subC], reviews := [], settings := defaultSettings } "alice@example.com",
      (handleGetWorkToReview { submissions := [subC], reviews := [], settings := defaultSettings }
          (some "alice@example.com") "2024-02-01" "f1" 0).1
          = AssignOutcome.assigned chosen ∧
      (handleGetWorkToReview { submissions := [subC], reviews := [], settings := defaultSettings }
          (some "alice@example.com") "2024-02-01" "f1" 0).2.settings = defaultSettings ∧
      (handleGetWorkToReview { submissions := [subC], reviews := [], settings := defaultSettings }
          (some "alice@example.com") "2024-02-01" "f1" 0).2.reviews
          = [{ id := "f1", submissionId := chosen.id, reviewer := "alice@example.com",
               status := "assigned", score := none, comment := "",
               pickupDate := some "2024-02-01", correctionDate := none }] :=
  match c7_assign_frame { submissions := [subC], reviews := [], settings := defaultSettings }
      "alice@example.com" "2024-02-01" "f1" 0 (by decide) with
  | ⟨chosen, hmem, h1, h2, h3, _⟩ => ⟨chosen, hmem, h1, h2, h3⟩

/-- C8: the settings save writes exactly when both parses succeed with
reviewCount > 0 and 0 ≤ maxScore ≤ 100; in particular reviewCount 0 and
maxScore 150 are rejected with the validation message and no write, while
reviewCount 3 with maxScore 100 is accepted. -/
theorem c8_settings_validation :
    (∀ rcStr msStr : String,
        (∃ s, handleSaveSettings rcStr msStr = SaveSettingsOutcome.saved s) ↔
          ∃ n m : Int, parseIntJS rcStr = some n ∧ parseIntJS msStr = some m ∧
            0 < n ∧ 0 ≤ m ∧ m ≤ 100) ∧
    handleSaveSettings "0" "100" = SaveSettingsOutcome.rejected settingsMsg ∧
    handleSaveSettings "3" "150" = SaveSettingsOutcome.rejected settingsMsg ∧
    handleSaveSettings "3" "100"
      = SaveSettingsOutcome.saved { reviewsPerSubmission := 3, maxScore := 100 } := by
  refine ⟨?_, by decide, by decide, by decide⟩
  intro rcStr msStr
  constructor
  · rintro ⟨s, hs⟩
    unfold handleSaveSettings at hs
    split at hs
    · next n m hrc hms =>
      split at hs
      · cases hs
      · next hcond =>
        exact ⟨n, m, hrc, hms, by omega, by omega, by omega⟩
    · cases hs
  · rintro ⟨n, m, hn, hm, h1, h2, h3⟩
    refine ⟨{ reviewsPerSubmission := n, maxScore := m }, ?_⟩
    unfold handleSaveSettings
    rw [hn, hm]
    show (if n ≤ 0 ∨ m < 0 ∨ m > 100 then SaveSettingsOutcome.rejected settingsMsg
          else SaveSettingsOutcome.saved { reviewsPerSubmission := n, maxScore := m })
        = SaveSettingsOutcome.saved { reviewsPerSubmission := n, maxScore := m }
    rw [if_neg (by omega)]

/-- Witness for C8: reviewCount 7 with maxScore 42 is accepted. -/
theorem c8_settings_witness :
    ∃ s, handleSaveSettings "7" "42" = SaveSettingsOutcome.saved s :=
  (c8_settings_validation.1 "7" "42").mpr
    ⟨7, 42, by decide, by decide, by decide, by decide, by decide⟩

/-- C9: for any score input string, the review finalization performs its writes
exactly when the parsed score is an integer within [0, maxScore]; otherwise it
shows the localized validation message and leaves the state unchanged. -/
theorem c9_score_validation (db : DbData) (rid scoreStr commentStr today : String) :
    ((handleSubmitReview db (some rid) scoreStr commentStr today).1
        = SubmitReviewOutcome.written ↔
      ∃ n, parseIntJS scoreStr = some n ∧ 0 ≤ n ∧ n ≤ db.settings.maxScore) ∧
    ((¬ ∃ n, parseIntJS scoreStr = some n ∧ 0 ≤ n ∧ n ≤ db.settings.maxScore) →
      handleSubmitReview db (some rid) scoreStr commentStr today
        = (SubmitReviewOutcome.invalid (scoreMsg db.settings.maxScore), db)) := by
  cases hp : parseIntJS scoreStr with
  | none =>
    constructor
    · constructor
      · intro hw
        simp only [handleSubmitReview, hp] at hw
        cases hw
      · rintro ⟨n, hn, -⟩
        cases hn
    · intro _
      simp only [handleSubmitReview, hp]
  | some n =>
    by_cases hc : n < 0 ∨ n > db.settings.maxScore
    · constructor
      · constructor
        · intro hw
          simp only [handleSubmitReview, hp] at hw
          rw [if_pos hc] at hw
          cases hw
        · rintro ⟨m, hm, h1, h2⟩
          obtain rfl := Option.some.inj hm
          omega
      · intro _
        simp only [handleSubmitReview, hp]
        rw [if_pos hc]
    · constructor
      · constructor
        · intro _
          exact ⟨n, rfl, by omega, by omega⟩
        · intro _
          simp only [handleSubmitReview, hp]
          rw [if_neg hc]
      · intro hno
        exact absurd ⟨n, rfl, by omega, by omega⟩ hno

/-- Witness for C9: score input "85" under maxScore 100 leads to the write. -/
theorem c9_score_validation_witness :
    (handleSubmitReview { submissions := [subA], reviews := [revB], settings := defaultSettings }
        (some "r1") "85" "ok" "2024-02-02").1 = SubmitReviewOutcome.written :=
  (c9_score_validation { submissions := [subA], reviews := [revB], settings := defaultSettings }
      "r1" "85" "ok" "2024-02-02").1.mpr ⟨85, by decide, by decide, by decide⟩

/-- C10: every review-originated row of the view projection references a cached
submission whose id equals the row's `submissionId`, and a review whose
`submissionId` matches no cached submission contributes no row at all. -/
theorem c10_review_rows_reference (subs : List Submission) (revs : List Review) :
    (∀ row ∈ allItems subs revs, row.type = "review" →
        ∃ sub ∈ subs, row.submissionId = some sub.id) ∧
    (∀ r ∈ revs, (∀ s ∈ subs, s.id ≠ r.submissionId) →
        ∀ row ∈ allItems subs revs,
          ¬(row.type = "review" ∧ row.submissionId = some r.submissionId)) := by
  have main : ∀ row ∈ allItems subs revs, row.type = "review" →
      ∃ sub ∈ subs, row.submissionId = some sub.id := by
    intro row hrow htype
    unfold allItems at hrow
    rw [List.mem_flatten] at hrow
    obtain ⟨l, hl, hrl⟩ := hrow
    rw [List.mem_map] at hl
    obtain ⟨sub, hsub, rfl⟩ := hl
    by_cases hpos : (reviewsForSubmission revs sub).length > 0
    · rw [if_pos hpos, List.mem_map] at hrl
      obtain ⟨rev, hrev, rfl⟩ := hrl
      refine ⟨sub, hsub, ?_⟩
      have hid : (rev.submissionId == sub.id) = true := (List.mem_filter.mp hrev).2
      show some rev.submissionId = some sub.id
      rw [beq_iff_eq.mp hid]
    · rw [if_neg hpos, List.mem_singleton] at hrl
      rw [hrl] at htype
      simp [submissionRow] at htype
  refine ⟨main, ?_⟩
  rintro r _ hnone row hrow ⟨htype, hid⟩
  obtain ⟨sub, hsub, hrowid⟩ := main row hrow htype
  rw [hid] at hrowid
  exact hnone sub hsub (Option.some.inj hrowid).symm

/-- Witness for C10: in a state with one submission, one matching review and one
orphan review, every projected row either is not a review row or references the
cached submission id "s1". -/
theorem c10_review_rows_witness :
    ((allItems [subA] [revB, orphanRev]).all
        (fun row => !(row.type == "review") || (row.submissionId == some "s1"))) = true := by
  rw [List.all_eq_true]
  intro row hrow
  by_cases ht : row.type = "review"
  · obtain ⟨sub, hsub, hid⟩ := (c10_review_rows_reference [subA] [revB, orphanRev]).1 row hrow ht
    have hsA : sub = subA := List.mem_singleton.mp hsub
    rw [hsA] at hid
    have : (row.submissionId == some "s1") = true := by
      rw [hid]
      decide
    simp [this]
  · simp [ht]

end PeerReview
